import Mathlib

/-!
# Verification of the SARS knowledge base and crisis detector

Shallow embedding of `src/agents/lib/sars_knowledge_base.py` and
`src/agents/lib/crisis_detector.py`.  Python numbers are modelled as `ℚ`
(ints embed exactly; float literals such as `0.28` denote the decimal
they print as), Python strings as `String` (character-level operations
go through `List Char`), Python dicts of fixed shape as structures, and
the filesystem touched by `update_regulation` as an association list
from file name to document.
-/

/-! ## Data model for `SARSKnowledgeBase` rule tables -/

/-- One row of an allowance table: the `able_bodied` / `disability`
columns of the nested JSON dict. -/
structure AbilityRow where
  able_bodied : ℚ
  disability : ℚ
  deriving DecidableEq, Repr

/-- The two qualification bands of an allowance table
(`nqf_1_to_6` and `nqf_7_to_10`). -/
structure AllowanceTable where
  nqf_1_to_6 : AbilityRow
  nqf_7_to_10 : AbilityRow
  deriving DecidableEq, Repr

/-- The fields of `section_12h_learnerships.json` read by
`calculate_section_12h`. -/
structure Sec12hData where
  annual_allowance : AllowanceTable
  completion_allowance : AllowanceTable
  official_sources : List String
  last_updated : String
  deriving DecidableEq, Repr

/-- The fields of `eti_employment_incentive.json` read by
`calculate_eti`. -/
structure EtiData where
  official_sources : List String
  last_updated : String
  deriving DecidableEq, Repr

/-- A learner dict passed to `calculate_section_12h`:
`id` is read with `.get` (so it may be absent), `nqf_level` with `[]`,
and `disabled` / `completed` with `.get(..., False)`. -/
structure Learner where
  id : Option String
  nqf_level : ℤ
  disabled : Bool
  completed : Bool
  deriving DecidableEq, Repr

/-- One entry of the `breakdown` list built by `calculate_section_12h`. -/
structure LearnerEntry where
  learner_id : Option String
  nqf_level : ℤ
  annual_allowance : ℚ
  completion_allowance : ℚ
  total : ℚ
  deriving DecidableEq, Repr

/-- The dict returned by `calculate_section_12h` (the constant
`regulation` string is omitted; `source` is `official_sources[0]`,
modelled as `head?` — the claims only concern well-formed documents). -/
structure Sec12hResult where
  total_recovery : ℚ
  tax_saving_28_percent : ℚ
  learnerships_count : ℕ
  breakdown : List LearnerEntry
  source : Option String
  last_verified : String
  deriving DecidableEq, Repr

/-- Per-learner step of the loop body of `calculate_section_12h`
(lines 241–257 of `sars_knowledge_base.py`): band selected by
`nqf_level <= 6`, column by the `disabled` flag, completion allowance
added only when `completed`. -/
def learnerEntry (d : Sec12hData) (l : Learner) : LearnerEntry :=
  let annualRow := if l.nqf_level ≤ 6 then d.annual_allowance.nqf_1_to_6
    else d.annual_allowance.nqf_7_to_10
  let complRow := if l.nqf_level ≤ 6 then d.completion_allowance.nqf_1_to_6
    else d.completion_allowance.nqf_7_to_10
  let annual := if l.disabled then annualRow.disability else annualRow.able_bodied
  let completion := if l.completed then
    (if l.disabled then complRow.disability else complRow.able_bodied) else 0
  { learner_id := l.id
    nqf_level := l.nqf_level
    annual_allowance := annual
    completion_allowance := completion
    total := annual + completion }

/-- The accumulating loop of `calculate_section_12h`: running total and
breakdown list, in input order. -/
def sec12hLoop (d : Sec12hData) : List Learner → ℚ × List LearnerEntry
  | [] => (0, [])
  | l :: ls =>
    let rest := sec12hLoop d ls
    ((learnerEntry d l).total + rest.1, learnerEntry d l :: rest.2)

/-- Embedding of `SARSKnowledgeBase.calculate_section_12h`
(`sars_knowledge_base.py`, lines 233–267). -/
def calculate_section_12h (d : Sec12hData) (learnerships : List Learner) :
    Sec12hResult :=
  let acc := sec12hLoop d learnerships
  { total_recovery := acc.1
    tax_saving_28_percent := acc.1 * 0.28
    learnerships_count := learnerships.length
    breakdown := acc.2
    source := d.official_sources.head?
    last_verified := d.last_updated }

/-- An employee dict passed to `calculate_eti`: `id` and
`months_employed` are read with `.get` (the latter defaulting to 1),
`age` and `monthly_salary` with `[]`. -/
structure Employee where
  id : Option String
  age : ℤ
  monthly_salary : ℚ
  months_employed : Option ℤ
  deriving DecidableEq, Repr

/-- One entry of the `breakdown` list built by `calculate_eti`. -/
structure EtiEntry where
  employee_id : Option String
  age : ℤ
  salary : ℚ
  months_employed : ℤ
  monthly_eti : ℚ
  deriving DecidableEq, Repr

/-- The dict returned by `calculate_eti` (constant `regulation` string
omitted). -/
structure EtiResult where
  monthly_eti : ℚ
  annual_eti : ℚ
  qualifying_employees : ℕ
  breakdown : List EtiEntry
  source : Option String
  last_verified : String
  deriving DecidableEq, Repr

/-- The per-employee monthly incentive of `calculate_eti`
(lines 286–301): two tenure bands split at `months_employed <= 12`,
each a ramp / plateau / taper piecewise function of salary, clamped to
zero by `max(0, monthly_eti)`. -/
def eti_monthly (months_employed : ℤ) (salary : ℚ) : ℚ :=
  let base :=
    if months_employed ≤ 12 then
      if salary < 2500 then salary * 0.6
      else if 2500 ≤ salary ∧ salary < 5500 then 1500
      else 1500 - 0.75 * (salary - 5500)
    else
      if salary < 2500 then salary * 0.3
      else if 2500 ≤ salary ∧ salary < 5500 then 750
      else 750 - 0.375 * (salary - 5500)
  max 0 base

/-- The breakdown entry appended for a retained employee
(lines 304–310). -/
def etiEntryOf (e : Employee) : EtiEntry :=
  let m := e.months_employed.getD 1
  { employee_id := e.id
    age := e.age
    salary := e.monthly_salary
    months_employed := m
    monthly_eti := eti_monthly m e.monthly_salary }

/-- The accumulating loop of `calculate_eti` (lines 277–310): the two
`continue` guards skip employees with age outside 18–29 or salary at or
above 7500. -/
def etiLoop : List Employee → ℚ × List EtiEntry
  | [] => (0, [])
  | e :: es =>
    if e.age < 18 ∨ 29 < e.age then etiLoop es
    else if 7500 ≤ e.monthly_salary then etiLoop es
    else
      let rest := etiLoop es
      ((etiEntryOf e).monthly_eti + rest.1, etiEntryOf e :: rest.2)

/-- Embedding of `SARSKnowledgeBase.calculate_eti`
(`sars_knowledge_base.py`, lines 269–320). -/
def calculate_eti (d : EtiData) (employees : List Employee) : EtiResult :=
  let acc := etiLoop employees
  { monthly_eti := acc.1
    annual_eti := acc.1 * 12
    qualifying_employees := acc.2.length
    breakdown := acc.2
    source := d.official_sources.head?
    last_verified := d.last_updated }

/-- The eligibility test equivalent to the complement of the two
`continue` guards of `calculate_eti`. -/
def etiEligible (e : Employee) : Bool :=
  decide (18 ≤ e.age ∧ e.age ≤ 29 ∧ e.monthly_salary < 7500)

/-! ## Data model for `CrisisDetector` -/

/-- Risk tiers, ordered `Low < Medium < High < Critical` (the Python
code carries them as strings). -/
inductive Tier
  | Low
  | Medium
  | High
  | Critical
  deriving DecidableEq, Repr

/-- Numeric rank of a tier, inducing the order on tiers. -/
def Tier.toNat : Tier → ℕ
  | .Low => 0
  | .Medium => 1
  | .High => 2
  | .Critical => 3

instance : LinearOrder Tier :=
  LinearOrder.lift' Tier.toNat
    (by intro a b h; cases a <;> cases b <;> simp_all [Tier.toNat])

/-- Alert levels (strings in the Python code). -/
inductive Alert
  | GREEN
  | YELLOW
  | ORANGE
  | RED
  deriving DecidableEq, Repr

/-- The fixed tier → alert mapping the spec describes
(Low→Green, Medium→Yellow, High→Orange, Critical→Red). -/
def tierAlert : Tier → Alert
  | .Low => .GREEN
  | .Medium => .YELLOW
  | .High => .ORANGE
  | .Critical => .RED

/-- The metrics dict read by `assessLoadsheddingRisk` via `.get`:
each metric may be absent. -/
structure Metrics where
  eaf : Option ℚ
  unplanned_outages_mw : Option ℚ
  coal_stockpile_days : Option ℚ
  deriving DecidableEq, Repr

/-- One entry of the `risks` list built by `assessLoadsheddingRisk`. -/
structure RiskItem where
  indicator : String
  current_value : ℚ
  threshold : ℚ
  risk_level : Tier
  likely_outcome : String
  action : String
  deriving DecidableEq, Repr

/-- The dict returned by `assessLoadsheddingRisk` (the wall-clock
`timestamp` and the `source` citation are not modelled; no claim
concerns them). -/
structure Assessment where
  overall_risk : Tier
  alert_level : Alert
  risks : List RiskItem
  recommendations : List String
  deriving DecidableEq, Repr

/-- Embedding of `CrisisDetector._get_recommendations`
(`crisis_detector.py`, lines 183–211). -/
def get_recommendations : Tier → List String
  | .Critical =>
    ["Activate all backup power systems immediately",
     "Reschedule critical operations to off-peak hours",
     "Alert all stakeholders of imminent disruption",
     "Implement emergency business continuity protocols"]
  | .High =>
    ["Test backup generators and UPS systems",
     "Stock up on diesel/battery reserves",
     "Schedule flexible work arrangements",
     "Communicate potential disruptions to clients"]
  | .Medium =>
    ["Monitor Eskom announcements closely",
     "Review business continuity plans",
     "Ensure backup systems are operational",
     "Consider demand-side management options"]
  | .Low =>
    ["Maintain regular monitoring schedule",
     "Keep backup systems in standby mode",
     "Continue normal operations"]

/-- Risk entry appended when `eaf and eaf < 60` holds (lines 102–112). -/
def eafCritRisk (v : ℚ) : RiskItem :=
  { indicator := "Energy Availability Factor below 60 percent"
    current_value := v
    threshold := 60
    risk_level := .Critical
    likely_outcome := "Stage 4-6 loadshedding imminent"
    action := "Activate backup generators immediately" }

/-- Risk entry appended when `eaf and eaf < 65` holds in the `elif`
branch (lines 113–123). -/
def eafHighRisk (v : ℚ) : RiskItem :=
  { indicator := "Energy Availability Factor below 65 percent"
    current_value := v
    threshold := 65
    risk_level := .High
    likely_outcome := "Stage 2-4 loadshedding within 48 hours"
    action := "Prepare backup power systems" }

/-- Risk entry appended when `unplanned_outages_mw and
unplanned_outages_mw > 15000` holds (lines 125–136). -/
def outageRisk (v : ℚ) : RiskItem :=
  { indicator := "Unplanned outages above 15,000 MW"
    current_value := v
    threshold := 15000
    risk_level := .Critical
    likely_outcome := "Stage 4-6 loadshedding imminent"
    action := "Implement emergency protocols" }

/-- Risk entry appended when `coal_stockpile_days and
coal_stockpile_days < 20` holds (lines 138–150). -/
def coalRisk (v : ℚ) : RiskItem :=
  { indicator := "Coal stockpile below 20 days"
    current_value := v
    threshold := 20
    risk_level := .Medium
    likely_outcome := "Increased risk within 2-4 weeks"
    action := "Monitor situation closely" }

/-- Embedding of `CrisisDetector.assessLoadsheddingRisk`
(`crisis_detector.py`, lines 91–161).  Each Python condition
`m and m < t` is truthiness (`m` present and nonzero) followed by the
comparison; the sequential mutation of `risks` / `overall_risk` /
`alert_level` is modelled as a chain of state triples. -/
def assessLoadsheddingRisk (m : Metrics) : Assessment :=
  let s0 : List RiskItem × Tier × Alert := ([], .Low, .GREEN)
  let s1 : List RiskItem × Tier × Alert :=
    match m.eaf with
    | none => s0
    | some v =>
      if v ≠ 0 ∧ v < 60 then ([eafCritRisk v], .Critical, .RED)
      else if v ≠ 0 ∧ v < 65 then ([eafHighRisk v], .High, .ORANGE)
      else s0
  let s2 : List RiskItem × Tier × Alert :=
    match m.unplanned_outages_mw with
    | none => s1
    | some v =>
      if v ≠ 0 ∧ 15000 < v then
        (s1.1 ++ [outageRisk v],
         (if s1.2.1 ≠ .Critical then .Critical else s1.2.1),
         .RED)
      else s1
  let s3 : List RiskItem × Tier × Alert :=
    match m.coal_stockpile_days with
    | none => s2
    | some v =>
      if v ≠ 0 ∧ v < 20 then
        (s2.1 ++ [coalRisk v],
         (if s2.2.1 = .Low then .Medium else s2.2.1),
         (if s2.2.2 = .GREEN then .YELLOW else s2.2.2))
      else s2
  { overall_risk := s3.2.1
    alert_level := s3.2.2
    risks := s3.1
    recommendations := get_recommendations s3.2.1 }

/-- One row of `business_impact_matrix` (per the schema read in
`initialize`: `stage_2`, `stage_4` and `mitigation` keys). -/
structure SectorImpacts where
  stage_2 : String
  stage_4 : String
  mitigation : String
  deriving DecidableEq, Repr

/-- The dict returned by `getBusinessImpact`. -/
structure BusinessImpact where
  sector : String
  stage : ℤ
  impact : String
  mitigation : String
  severity : String
  deriving DecidableEq, Repr

/-- Embedding of `CrisisDetector.getBusinessImpact`
(`crisis_detector.py`, lines 163–181).  The matrix is the
`business_impact_matrix` dict of the loaded data, keyed by sector; the
stage key `f"stage_{stage}"` hits a row field only for stages 2 and 4,
otherwise the `.get` call falls back to the sentinel default. -/
def getBusinessImpact (initialized : Bool)
    (matrix : List (String × SectorImpacts)) (sector : String)
    (stage : ℤ) : Except String BusinessImpact :=
  if ¬ initialized then .error "Crisis Detector not initialized"
  else
    match matrix.find? (fun e => e.1 == sector) with
    | none => .error ("Unknown sector: " ++ sector)
    | some row =>
      let impacts := row.2
      let impact := if stage = 2 then impacts.stage_2
        else if stage = 4 then impacts.stage_4
        else "Unknown impact for this stage"
      .ok
        { sector := sector
          stage := stage
          impact := impact
          mitigation := impacts.mitigation
          severity := if 4 ≤ stage then "Severe"
            else if 2 ≤ stage then "Moderate" else "Minor" }

/-! ## Regulation store (`initialize` / `update_regulation` /
`get_regulation_details`) -/

/-- In-memory state of a `SARSKnowledgeBase` instance together with the
files under its `data_path`.  The document type is a parameter `D`:
`json.dump` followed by `json.load` is modelled as the identity, and no
store-level claim depends on the documents' internal shape.  The
searchable `knowledge_base` rebuilt by `initialize` is derived data not
inspected by any store-level claim and is not carried here. -/
structure KBState (D : Type) where
  files : List (String × D)
  section12h_data : Option D
  eti_data : Option D
  initialized : Bool
  deriving DecidableEq, Repr

/-- File name of the Section 12H document. -/
def sec12h_file : String := "section_12h_learnerships.json"

/-- File name of the ETI document. -/
def eti_file : String := "eti_employment_incentive.json"

/-- The `file_map` dict of `update_regulation` (lines 332–335). -/
def file_map (regulation_type : String) : Option String :=
  if regulation_type = "section_12h" then some sec12h_file
  else if regulation_type = "eti" then some eti_file
  else none

/-- Read a file from the association-list filesystem. -/
def readFile {D : Type} (fs : List (String × D)) (p : String) : Option D :=
  (fs.find? (fun e => e.1 == p)).map (·.2)

/-- Write a file, overwriting an existing entry in place or appending a
new one. -/
def writeFile {D : Type} (fs : List (String × D)) (p : String) (d : D) :
    List (String × D) :=
  if fs.any (fun e => e.1 == p) then
    fs.map (fun e => if e.1 == p then (p, d) else e)
  else fs ++ [(p, d)]

/-- The backup path built at line 343:
`file_path.with_suffix(f".backup_{ts}.json")` replaces the trailing
`.json` (5 characters) of the document name. -/
def backupName (path ts : String) : String :=
  path.dropRight 5 ++ ".backup_" ++ ts ++ ".json"

/-- Embedding of `SARSKnowledgeBase.initialize` (lines 37–58): reads
both documents back into memory and marks the store initialized;
a missing document raises (`FileNotFoundError`).  The knowledge-base
rebuild only derives search items from the two documents and is not
modelled (no claim inspects it). -/
def init_kb {D : Type} (st : KBState D) : Except String (KBState D) :=
  match readFile st.files sec12h_file, readFile st.files eti_file with
  | some s, some e =>
    .ok { st with section12h_data := some s, eti_data := some e,
                  initialized := true }
  | _, _ => .error "FileNotFoundError"

/-- The backup block of `update_regulation` (lines 342–347): if the
target file exists, copy its current content to the timestamped backup
path; otherwise do nothing. -/
def backup_step {D : Type} (fs : List (String × D)) (path ts : String) :
    List (String × D) :=
  match readFile fs path with
  | some old => writeFile fs (backupName path ts) old
  | none => fs

/-- Embedding of `SARSKnowledgeBase.update_regulation` (lines 322–357):
unknown regulation types raise `ValueError`; otherwise back up the
existing file, write the new data, and reload.  The Python function has
no `return` statement, so the caller receives `None`: the first
component of the returned pair models that value (typed `Option String`
so it can be compared against a version identifier). -/
def update_regulation {D : Type} (st : KBState D) (regulation_type : String)
    (new_data : D) (ts : String) :
    Except String (Option String × KBState D) :=
  match file_map regulation_type with
  | none => .error ("Unknown regulation type: " ++ regulation_type)
  | some path =>
    let fs1 := backup_step st.files path ts
    let fs2 := writeFile fs1 path new_data
    (init_kb { st with files := fs2 }).map (fun st2 => (none, st2))

/-- Python `str.upper()` on the characters of a string. -/
def pyUpper (s : String) : List Char := s.toList.map Char.toUpper

/-- Embedding of `SARSKnowledgeBase.get_regulation_details`
(lines 366–376): auto-initializes on first use, then returns the
in-memory document for the (case-insensitively) named regulation, or
`None` for an unknown name. -/
def get_regulation_details {D : Type} (st : KBState D) (regulation : String) :
    Except String (Option D × KBState D) :=
  let stI := if st.initialized then Except.ok st else init_kb st
  stI.map (fun st2 =>
    (if pyUpper regulation = "SECTION 12H".toList then st2.section12h_data
     else if pyUpper regulation = "ETI".toList then st2.eti_data
     else none, st2))

/-! ## Retrieval index (`SARSKnowledgeBase.query`) -/

/-- One searchable item of `self.knowledge_base` as appended by
`_build_knowledge_base`. -/
structure KnowledgeItem where
  id : String
  regulation : String
  topic : String
  content : String
  keywords : List String
  source : String
  deriving DecidableEq, Repr

/-- An item together with the `relevance_score` attached by `query`
(`{**item, "relevance_score": score}`). -/
structure ScoredItem where
  item : KnowledgeItem
  relevance_score : ℕ
  deriving DecidableEq, Repr

/-- Python `str.lower()` on the characters of a string. -/
def pyLower (s : String) : List Char := s.toList.map Char.toLower

/-- Python's substring test `w in s`. -/
def substrOf (w s : List Char) : Bool := decide (w <:+: s)

/-- Helper for Python `str.split()` with no separator: split on runs of
whitespace, discarding empty pieces; `acc` holds the reversed current
token. -/
def splitWsAux : List Char → List Char → List (List Char)
  | [], acc => if acc.isEmpty then [] else [acc.reverse]
  | c :: cs, acc =>
    if c.isWhitespace then
      if acc.isEmpty then splitWsAux cs []
      else acc.reverse :: splitWsAux cs []
    else splitWsAux cs (c :: acc)

/-- Python `str.split()` (no separator) on a character list. -/
def pySplit (cs : List Char) : List (List Char) := splitWsAux cs []

/-- The per-item score of `query` (lines 213–220): for each query word,
10 points if the word occurs in the lowercased content, plus 5 points
if it occurs in any keyword. -/
def itemScore (item : KnowledgeItem) (words : List (List Char)) : ℕ :=
  words.foldl (fun score w =>
    score + (if substrOf w (pyLower item.content) then 10 else 0)
      + (if item.keywords.any (fun k => substrOf w k.toList) then 5 else 0)) 0

/-- Embedding of `SARSKnowledgeBase.query` (lines 204–231) over a built
knowledge base: score every item, keep positive scores in build order,
sort by descending relevance and truncate.  CPython's `list.sort` is
stable, which `List.insertionSort` with the reflexive descending-score
relation reproduces exactly. -/
def query (knowledge_base : List KnowledgeItem) (query_text : String)
    (top_n : ℕ) : List ScoredItem :=
  let words := pySplit (pyLower query_text)
  let results := (knowledge_base.map
      (fun it => ScoredItem.mk it (itemScore it words))).filter
      (fun r => 0 < r.relevance_score)
  let sorted := List.insertionSort
    (fun a b => b.relevance_score ≤ a.relevance_score) results
  sorted.take top_n

/-- Strict-then-positional order on index-decorated scored items: higher
score first, ties by original build position.  This is the ordering the
spec's words describe for `search`. -/
def lexRank (a b : ScoredItem × ℕ) : Prop :=
  b.1.relevance_score < a.1.relevance_score ∨
    (a.1.relevance_score = b.1.relevance_score ∧ a.2 ≤ b.2)

instance : DecidableRel lexRank := fun a b => by
  unfold lexRank; infer_instance

/-- The spec's description of `search`, written independently of the
code: tokenize the query on whitespace case-insensitively, give each
item 10 points per token occurring in its content plus 5 per token
occurring in any keyword, exclude zero scores, order by descending
score with ties in original build order, truncate to `top_n`. -/
def searchSpec (kb : List KnowledgeItem) (query_text : String)
    (top_n : ℕ) : List ScoredItem :=
  let words := pySplit (pyLower query_text)
  let indexed := (kb.enum.map
      (fun p => (ScoredItem.mk p.2 (itemScore p.2 words), p.1))).filter
      (fun r => 0 < r.1.relevance_score)
  ((indexed.insertionSort lexRank).map Prod.fst).take top_n

/-! ## Concrete example data used by witnesses and counterexamples -/

/-- A well-formed Section 12H document carrying the real SARS rates
(annual and completion allowance 30000 for the able-bodied lower band,
as in the spec's concrete scenario). -/
def exampleSec12h : Sec12hData :=
  { annual_allowance :=
      { nqf_1_to_6 := ⟨30000, 50000⟩, nqf_7_to_10 := ⟨20000, 50000⟩ }
    completion_allowance :=
      { nqf_1_to_6 := ⟨30000, 50000⟩, nqf_7_to_10 := ⟨20000, 50000⟩ }
    official_sources := ["https://www.sars.gov.za/types-of-tax/"]
    last_updated := "2024-11-01" }

/-- The learner of the spec's concrete scenario: lower band,
able-bodied, completed. -/
def exampleLearner : Learner :=
  { id := some "L1", nqf_level := 4, disabled := false, completed := true }

/-- A learner whose `nqf_level` (11) lies outside the defined NQF bands
1–10. -/
def outOfBandLearner : Learner :=
  { id := none, nqf_level := 11, disabled := false, completed := false }

/-- A store state (documents modelled as bare naturals) with both
documents persisted. -/
def exampleKBState : KBState ℕ :=
  { files := [(sec12h_file, 10), (eti_file, 20)]
    section12h_data := none
    eti_data := none
    initialized := false }

/-! # Theorems -/

/-! ## C2 — Section 12H aggregate, statutory rate, concrete scenario -/

/-- The running total of the calculation loop is the sum of the
per-learner totals of the breakdown it builds. -/
theorem sec12hLoop_total (d : Sec12hData) :
    ∀ ls : List Learner,
      (sec12hLoop d ls).1 = ((sec12hLoop d ls).2.map LearnerEntry.total).sum
  | [] => by simp [sec12hLoop]
  | l :: ls => by
    simp [sec12hLoop, sec12hLoop_total d ls]

/-- C2: for every learner list and rule set, `calculate_section_12h`
returns an aggregate equal to the sum of the breakdown's per-learner
totals and a tax saving equal to the aggregate times the statutory rate
0.28 exactly; the scenario learner (lower band, able-bodied, completed,
annual and completion allowance 30000) yields total 60000 and tax
saving 16800; the empty learner list yields all-zero totals and no
error. -/
theorem calculate_section_12h_sound :
    (∀ (d : Sec12hData) (ls : List Learner),
      (calculate_section_12h d ls).total_recovery =
        (((calculate_section_12h d ls).breakdown).map LearnerEntry.total).sum
      ∧ (calculate_section_12h d ls).tax_saving_28_percent =
        (calculate_section_12h d ls).total_recovery * 0.28)
    ∧ ((calculate_section_12h exampleSec12h [exampleLearner]).total_recovery
        = 60000
      ∧ (calculate_section_12h exampleSec12h
          [exampleLearner]).tax_saving_28_percent = 16800)
    ∧ (∀ d : Sec12hData,
        (calculate_section_12h d []).total_recovery = 0
        ∧ (calculate_section_12h d []).tax_saving_28_percent = 0
        ∧ (calculate_section_12h d []).learnerships_count = 0
        ∧ (calculate_section_12h d []).breakdown = []) := by
  refine ⟨fun d ls => ⟨?_, rfl⟩, ⟨?_, ?_⟩, fun d => ⟨rfl, by norm_num [calculate_section_12h, sec12hLoop], rfl, rfl⟩⟩
  · simpa [calculate_section_12h] using sec12hLoop_total d ls
  · norm_num [calculate_section_12h, sec12hLoop, learnerEntry, exampleSec12h,
      exampleLearner]
  · norm_num [calculate_section_12h, sec12hLoop, learnerEntry, exampleSec12h,
      exampleLearner]

/-! ## C4 — out-of-band qualification levels are not rejected -/

/-- C4 counterexample: a learner with `nqf_level = 11` (outside the
defined bands 1–10) does not make `calculate_section_12h` fail; the
learner is assigned the upper band (annual allowance 20000 in
`exampleSec12h`) and a full result is returned. -/
theorem calculate_section_12h_accepts_out_of_band :
    (calculate_section_12h exampleSec12h [outOfBandLearner]).breakdown =
      [{ learner_id := none, nqf_level := 11, annual_allowance := 20000,
         completion_allowance := 0, total := 20000 }]
    ∧ (calculate_section_12h exampleSec12h
        [outOfBandLearner]).learnerships_count = 1 := by
  constructor
  · norm_num [calculate_section_12h, sec12hLoop, learnerEntry, exampleSec12h,
      outOfBandLearner]
  · rfl

/-- C4 amended: `calculate_section_12h` never raises for a learner
whose qualification band value lies outside the defined bands; such a
learner is assigned a band by the `nqf_level <= 6` cut (lower band when
at most 6, upper band otherwise) and a complete result with one
breakdown entry per learner is returned. -/
theorem calculate_section_12h_no_band_validation (d : Sec12hData)
    (l : Learner) (hl : ¬ (1 ≤ l.nqf_level ∧ l.nqf_level ≤ 10)) :
    (calculate_section_12h d [l]).learnerships_count = 1
    ∧ (calculate_section_12h d [l]).breakdown.length = 1
    ∧ ((calculate_section_12h d [l]).breakdown.map
        LearnerEntry.annual_allowance) =
      [if l.nqf_level ≤ 6 then
        (if l.disabled then d.annual_allowance.nqf_1_to_6.disability
         else d.annual_allowance.nqf_1_to_6.able_bodied)
       else
        (if l.disabled then d.annual_allowance.nqf_7_to_10.disability
         else d.annual_allowance.nqf_7_to_10.able_bodied)] := by
  refine ⟨rfl, rfl, ?_⟩
  simp only [calculate_section_12h, sec12hLoop, learnerEntry, List.map]
  split_ifs <;> rfl

/-- Witness for the amended C4 theorem at a disabled learner with
`nqf_level = -2`. -/
theorem calculate_section_12h_no_band_validation_witness :
    (¬ (1 ≤ (-2 : ℤ) ∧ (-2 : ℤ) ≤ 10))
    ∧ ((calculate_section_12h exampleSec12h
          [⟨none, -2, true, false⟩]).learnerships_count = 1
      ∧ (calculate_section_12h exampleSec12h
          [⟨none, -2, true, false⟩]).breakdown.length = 1
      ∧ ((calculate_section_12h exampleSec12h
          [⟨none, -2, true, false⟩]).breakdown.map
            LearnerEntry.annual_allowance) =
        [if (-2 : ℤ) ≤ 6 then
          (if true then exampleSec12h.annual_allowance.nqf_1_to_6.disability
           else exampleSec12h.annual_allowance.nqf_1_to_6.able_bodied)
         else
          (if true then exampleSec12h.annual_allowance.nqf_7_to_10.disability
           else exampleSec12h.annual_allowance.nqf_7_to_10.able_bodied)]) :=
  ⟨by decide,
   calculate_section_12h_no_band_validation exampleSec12h
     ⟨none, -2, true, false⟩ (by decide)⟩

/-! ## C6 — ETI eligibility filtering and annualization -/

/-- The eligibility test matches the complement of the two `continue`
guards. -/
theorem etiEligible_iff (e : Employee) :
    etiEligible e = true ↔
      ¬ (e.age < 18 ∨ 29 < e.age) ∧ ¬ (7500 ≤ e.monthly_salary) := by
  simp only [etiEligible, decide_eq_true_eq, not_or, not_lt, not_le]
  tauto

/-- The loop of `calculate_eti` builds exactly the breakdown of the
eligible employees, in order. -/
theorem etiLoop_breakdown :
    ∀ es : List Employee,
      (etiLoop es).2 = (es.filter etiEligible).map etiEntryOf
  | [] => by simp [etiLoop]
  | e :: es => by
    by_cases h1 : e.age < 18 ∨ 29 < e.age
    · have he : etiEligible e = false := by
        rw [Bool.eq_false_iff, Ne, etiEligible_iff]; tauto
      simp [etiLoop, h1, he, etiLoop_breakdown es]
    · by_cases h2 : (7500 : ℚ) ≤ e.monthly_salary
      · have he : etiEligible e = false := by
          rw [Bool.eq_false_iff, Ne, etiEligible_iff]; tauto
        simp [etiLoop, h1, h2, he, etiLoop_breakdown es]
      · have he : etiEligible e = true := by rw [etiEligible_iff]; tauto
        simp [etiLoop, h1, h2, he, etiLoop_breakdown es]

/-- C6: employees outside the 18–29 age window or at/above the 7500
salary ceiling appear in neither the breakdown nor the qualifying
count of `calculate_eti` (the function is total, so no error is raised
for them), every breakdown entry passes both tests, and the annual
figure is the monthly total times 12. -/
theorem calculate_eti_excludes_ineligible (d : EtiData)
    (es : List Employee) :
    (calculate_eti d es).breakdown = (es.filter etiEligible).map etiEntryOf
    ∧ (calculate_eti d es).qualifying_employees =
        (es.filter etiEligible).length
    ∧ (∀ b ∈ (calculate_eti d es).breakdown,
        18 ≤ b.age ∧ b.age ≤ 29 ∧ b.salary < 7500)
    ∧ (calculate_eti d es).annual_eti = (calculate_eti d es).monthly_eti * 12
    := by
  refine ⟨?_, ?_, ?_, rfl⟩
  · simpa [calculate_eti] using etiLoop_breakdown es
  · simp [calculate_eti, etiLoop_breakdown es]
  · intro b hb
    simp only [calculate_eti, etiLoop_breakdown es, List.mem_map,
      List.mem_filter] at hb
    obtain ⟨e, ⟨_, he⟩, rfl⟩ := hb
    rw [etiEligible_iff] at he
    simp only [etiEntryOf]
    push_neg at he
    exact ⟨he.1.1, he.1.2, he.2⟩

/-! ## C5 — continuity and non-negativity of the monthly incentive -/

/-- Closed form of `eti_monthly`: in each tenure band the piecewise
ramp / plateau / taper equals a max/min combination of the three affine
pieces. -/
theorem eti_monthly_eq (m : ℤ) (s : ℚ) :
    eti_monthly m s =
      if m ≤ 12 then
        max 0 (min (s * 0.6) (min 1500 (1500 - 0.75 * (s - 5500))))
      else
        max 0 (min (s * 0.3) (min 750 (750 - 0.375 * (s - 5500)))) := by
  unfold eti_monthly
  split_ifs with hm h1 h2 h1 h2
  · rw [min_eq_left (le_min (by linarith) (by linarith))]
  · obtain ⟨h2a, h2b⟩ := h2
    rw [show min (1500 : ℚ) (1500 - 0.75 * (s - 5500)) = 1500 from
        min_eq_left (by linarith),
      show min (s * 0.6) (1500 : ℚ) = 1500 from min_eq_right (by linarith)]
  · push_neg at h1 h2
    have h55 : (5500 : ℚ) ≤ s := h2 h1
    rw [show min (1500 : ℚ) (1500 - 0.75 * (s - 5500)) =
          1500 - 0.75 * (s - 5500) from min_eq_right (by linarith),
      show min (s * 0.6) (1500 - 0.75 * (s - 5500)) =
          1500 - 0.75 * (s - 5500) from min_eq_right (by linarith)]
  · rw [min_eq_left (le_min (by linarith) (by linarith))]
  · obtain ⟨h2a, h2b⟩ := h2
    rw [show min (750 : ℚ) (750 - 0.375 * (s - 5500)) = 750 from
        min_eq_left (by linarith),
      show min (s * 0.3) (750 : ℚ) = 750 from min_eq_right (by linarith)]
  · push_neg at h1 h2
    have h55 : (5500 : ℚ) ≤ s := h2 h1
    rw [show min (750 : ℚ) (750 - 0.375 * (s - 5500)) =
          750 - 0.375 * (s - 5500) from min_eq_right (by linarith),
      show min (s * 0.3) (750 - 0.375 * (s - 5500)) =
          750 - 0.375 * (s - 5500) from min_eq_right (by linarith)]

/-- C5: for each tenure band, the per-employee monthly incentive of
`calculate_eti` is a continuous function of salary — in particular
continuous at the segment boundaries 2500 and 5500 — and is never
negative. -/
theorem eti_monthly_continuous_nonneg :
    (∀ m : ℤ, Continuous (fun s : ℚ => eti_monthly m s))
    ∧ (∀ m : ℤ, ContinuousAt (fun s : ℚ => eti_monthly m s) 2500
        ∧ ContinuousAt (fun s : ℚ => eti_monthly m s) 5500)
    ∧ (∀ (m : ℤ) (s : ℚ), 0 ≤ eti_monthly m s) := by
  have hc : ∀ m : ℤ, Continuous (fun s : ℚ => eti_monthly m s) := by
    intro m
    have he : (fun s : ℚ => eti_monthly m s) =
        if m ≤ 12 then
          (fun s : ℚ =>
            max 0 (min (s * 0.6) (min 1500 (1500 - 0.75 * (s - 5500)))))
        else
          (fun s : ℚ =>
            max 0 (min (s * 0.3) (min 750 (750 - 0.375 * (s - 5500))))) := by
      funext s
      rw [eti_monthly_eq]
      split_ifs <;> rfl
    rw [he]
    split_ifs <;>
      exact Continuous.max continuous_const
        (Continuous.min (continuous_id.mul continuous_const)
          (Continuous.min continuous_const
            (continuous_const.sub
              (continuous_const.mul (continuous_id.sub continuous_const)))))
  refine ⟨hc, fun m => ⟨(hc m).continuousAt, (hc m).continuousAt⟩, ?_⟩
  intro m s
  unfold eti_monthly
  exact le_max_left _ _

/-! ## C8 — business impact lookup -/

/-- C8: on an initialized detector, `getBusinessImpact` fails with the
unknown-sector error exactly when the sector is missing from the
matrix; a known sector with a stage other than the defined stages 2 and
4 yields the "Unknown impact for this stage" sentinel instead of
failing; and the returned severity is Severe for stage at least 4,
Moderate for stage at least 2 and below 4, and Minor otherwise. -/
theorem getBusinessImpact_spec (matrix : List (String × SectorImpacts))
    (sector : String) (stage : ℤ) :
    (matrix.find? (fun e => e.1 == sector) = none →
      getBusinessImpact true matrix sector stage =
        .error ("Unknown sector: " ++ sector))
    ∧ (∀ row, matrix.find? (fun e => e.1 == sector) = some row →
        getBusinessImpact true matrix sector stage =
          .ok { sector := sector
                stage := stage
                impact := if stage = 2 then row.2.stage_2
                  else if stage = 4 then row.2.stage_4
                  else "Unknown impact for this stage"
                mitigation := row.2.mitigation
                severity := if 4 ≤ stage then "Severe"
                  else if 2 ≤ stage then "Moderate" else "Minor" })
    ∧ (∀ imp : BusinessImpact,
        getBusinessImpact true matrix sector stage = .ok imp →
        (imp.severity = if 4 ≤ stage then "Severe"
          else if 2 ≤ stage then "Moderate" else "Minor")
        ∧ (stage ≠ 2 → stage ≠ 4 →
            imp.impact = "Unknown impact for this stage")) := by
  refine ⟨fun h => by simp [getBusinessImpact, h], ?_, ?_⟩
  · intro row hrow
    simp [getBusinessImpact, hrow]
  · intro imp h
    cases hf : matrix.find? (fun e => e.1 == sector) with
    | none => simp [getBusinessImpact, hf] at h
    | some row =>
      simp only [getBusinessImpact, hf, not_true_eq_false, if_false,
        ite_false, Except.ok.injEq] at h
      constructor
      · rw [← h]
      · intro h2 h4
        rw [← h]
        simp [h2, h4]

/-- Witness for the C8 theorem at a one-row matrix. -/
theorem getBusinessImpact_spec_witness :
    (([("manufacturing", SectorImpacts.mk "im2" "im4" "mit")].find?
        (fun e => e.1 == "retail") = none)
      ∧ getBusinessImpact true
          [("manufacturing", SectorImpacts.mk "im2" "im4" "mit")]
          "retail" 3 = .error "Unknown sector: retail")
    ∧ (∀ imp : BusinessImpact,
        getBusinessImpact true
          [("manufacturing", SectorImpacts.mk "im2" "im4" "mit")]
          "manufacturing" 3 = .ok imp →
        (imp.severity = if 4 ≤ (3 : ℤ) then "Severe"
          else if 2 ≤ (3 : ℤ) then "Moderate" else "Minor")
        ∧ ((3 : ℤ) ≠ 2 → (3 : ℤ) ≠ 4 →
            imp.impact = "Unknown impact for this stage")) :=
  ⟨⟨by rfl,
    (getBusinessImpact_spec
      [("manufacturing", SectorImpacts.mk "im2" "im4" "mit")]
      "retail" 3).1 (by rfl)⟩,
   (getBusinessImpact_spec
      [("manufacturing", SectorImpacts.mk "im2" "im4" "mit")]
      "manufacturing" 3).2.2⟩

/-! ## C7 — `update_regulation` returns no identifier -/

/-- C7 counterexample: updating the pre-existing Section 12H document
returns Python `None` (modelled as `none`) to the caller, not the prior
version's identifier. -/
theorem update_regulation_returns_none_concrete :
    (update_regulation exampleKBState "section_12h" 11
        "20250101_120000").toOption.map Prod.fst = some none := by rfl

/-- C7 amended: every successful `update_regulation` call returns
`None` to the caller; the prior version's content is preserved only in
the backup file, and no identifier is returned for audit purposes. -/
theorem update_regulation_returns_none {D : Type} (st : KBState D)
    (regulation_type : String) (new_data : D) (ts : String)
    (r : Option String) (st2 : KBState D)
    (h : update_regulation st regulation_type new_data ts = .ok (r, st2)) :
    r = none := by
  unfold update_regulation at h
  cases hm : file_map regulation_type with
  | none => rw [hm] at h; exact absurd h (by simp)
  | some path =>
    rw [hm] at h
    simp only [Except.map] at h
    cases hi : init_kb { st with
        files := writeFile (backup_step st.files path ts) path new_data } with
    | error e => rw [hi] at h; exact absurd h (by simp)
    | ok stI =>
      rw [hi] at h
      cases h
      rfl

/-- Witness for the amended C7 theorem at the concrete example state. -/
theorem update_regulation_returns_none_witness :
    (update_regulation exampleKBState "section_12h" 11 "20250101_120000" =
      .ok (none,
        { files := [(sec12h_file, 11), (eti_file, 20),
            (backupName sec12h_file "20250101_120000", 10)]
          section12h_data := some 11
          eti_data := some 20
          initialized := true }))
    ∧ (none : Option String) = none := by
  constructor
  · rfl
  · exact update_regulation_returns_none exampleKBState "section_12h" 11
      "20250101_120000" none _ (by rfl)

/-! ## C10 — a zero metric value matches no indicator -/

/-- C10: because every Python guard is `metric and metric < threshold`,
a metric equal to 0 is falsy and behaves exactly like an absent metric;
in particular a snapshot whose only metric is availability factor 0
yields overall Low, alert Green and an empty risk list, even though 0
is below every availability threshold. -/
theorem assess_zero_metric_like_absent :
    (∀ m : Metrics,
      assessLoadsheddingRisk { m with eaf := some 0 } =
        assessLoadsheddingRisk { m with eaf := none }
      ∧ assessLoadsheddingRisk { m with unplanned_outages_mw := some 0 } =
        assessLoadsheddingRisk { m with unplanned_outages_mw := none }
      ∧ assessLoadsheddingRisk { m with coal_stockpile_days := some 0 } =
        assessLoadsheddingRisk { m with coal_stockpile_days := none })
    ∧ assessLoadsheddingRisk ⟨some 0, none, none⟩ =
        { overall_risk := .Low
          alert_level := .GREEN
          risks := []
          recommendations := get_recommendations .Low }
    ∧ (0 : ℚ) < 60 := by
  refine ⟨fun m => ⟨?_, ?_, ?_⟩, by rfl, by norm_num⟩
  · simp [assessLoadsheddingRisk]
  · simp [assessLoadsheddingRisk]
  · simp [assessLoadsheddingRisk]

/-! ## C3 — overall tier is the max of matched indicators -/

set_option maxHeartbeats 1000000 in
/-- C3: the overall tier returned by `assessLoadsheddingRisk` is the
maximum (under Low < Medium < High < Critical) of the tiers of the
indicators it reports; the alert level is the fixed order-preserving
image of the overall tier; when no indicator matches the result is
Low/Green with an empty risk list; and every indicator whose (truthy)
threshold condition holds is reported in the risk list regardless of
tier. -/
theorem assessLoadsheddingRisk_spec (m : Metrics) :
    (assessLoadsheddingRisk m).overall_risk =
      ((assessLoadsheddingRisk m).risks.map RiskItem.risk_level).foldr
        max .Low
    ∧ (assessLoadsheddingRisk m).alert_level =
        tierAlert (assessLoadsheddingRisk m).overall_risk
    ∧ ((assessLoadsheddingRisk m).risks = [] →
        (assessLoadsheddingRisk m).overall_risk = .Low
        ∧ (assessLoadsheddingRisk m).alert_level = .GREEN)
    ∧ (∀ v, m.eaf = some v → v ≠ 0 → v < 60 →
        eafCritRisk v ∈ (assessLoadsheddingRisk m).risks)
    ∧ (∀ v, m.eaf = some v → v ≠ 0 → ¬ v < 60 → v < 65 →
        eafHighRisk v ∈ (assessLoadsheddingRisk m).risks)
    ∧ (∀ v, m.unplanned_outages_mw = some v → v ≠ 0 → 15000 < v →
        outageRisk v ∈ (assessLoadsheddingRisk m).risks)
    ∧ (∀ v, m.coal_stockpile_days = some v → v ≠ 0 → v < 20 →
        coalRisk v ∈ (assessLoadsheddingRisk m).risks) := by
  obtain ⟨eaf, out, coal⟩ := m
  rcases eaf with _ | v <;> rcases out with _ | w <;> rcases coal with _ | u <;>
    (simp only [assessLoadsheddingRisk]
     try split_ifs
     all_goals try (exfalso; simp_all; done)
     all_goals refine ⟨by rfl, by rfl, by simp, ?_, ?_, ?_, ?_⟩
     all_goals
       (intro x hx
        first
          | exact Option.noConfusion hx
          | (cases hx <;>
             (intros
              first
                | (simp; done)
                | tauto))))

/-- Witness for the C3 theorem at the snapshot ⟨eaf 70, outages 16000,
coal 15⟩: the outage and coal indicators match and are both reported. -/
theorem assessLoadsheddingRisk_spec_witness :
    outageRisk 16000 ∈
      (assessLoadsheddingRisk ⟨some 70, some 16000, some 15⟩).risks
    ∧ coalRisk 15 ∈
      (assessLoadsheddingRisk ⟨some 70, some 16000, some 15⟩).risks :=
  ⟨(assessLoadsheddingRisk_spec ⟨some 70, some 16000, some 15⟩).2.2.2.2.2.1
      16000 rfl (by norm_num) (by norm_num),
   (assessLoadsheddingRisk_spec ⟨some 70, some 16000, some 15⟩).2.2.2.2.2.2
      15 rfl (by norm_num) (by norm_num)⟩

/-- Witness for the C6 theorem: in a list with one eligible and one
over-age employee, the single breakdown entry passes all three
eligibility tests. -/
theorem calculate_eti_excludes_ineligible_witness :
    18 ≤ (etiEntryOf ⟨some "E1", 24, 4000, some 6⟩).age
    ∧ (etiEntryOf ⟨some "E1", 24, 4000, some 6⟩).age ≤ 29
    ∧ (etiEntryOf ⟨some "E1", 24, 4000, some 6⟩).salary < 7500 :=
  (calculate_eti_excludes_ineligible ⟨["src"], "2025-01-01"⟩
      [⟨some "E1", 24, 4000, some 6⟩, ⟨some "E2", 35, 4000, none⟩]).2.2.1
    (etiEntryOf ⟨some "E1", 24, 4000, some 6⟩)
    (by norm_num [calculate_eti, etiLoop])

/-! ## C1 — backup before replace, then reload -/

/-- The entry produced by the overwrite branch of `writeFile` keeps
the entry's name. -/
theorem overwrite_key_eq {D : Type} (p q : String) (d : D)
    (e : String × D) :
    ((if e.1 == p then (p, d) else e).1 == q) = (e.1 == q) := by
  by_cases he : e.1 == p
  · have : e.1 = p := by simpa using he
    simp [he, this]
  · simp [he]

/-- Reading the overwritten name from the overwrite branch of
`writeFile` yields the new content. -/
theorem readFile_overwrite_self {D : Type} (fs : List (String × D))
    (p : String) (d : D) (h : fs.any (fun e => e.1 == p) = true) :
    readFile (fs.map (fun e => if e.1 == p then (p, d) else e)) p =
      some d := by
  induction fs with
  | nil => simp at h
  | cons e fs ih =>
    unfold readFile
    rw [List.map_cons]
    simp only [List.find?_cons, overwrite_key_eq p p d e]
    by_cases he : (e.1 == p) = true
    · simp [he]
    · have he2 : (e.1 == p) = false := by simpa using he
      have h2 : fs.any (fun e => e.1 == p) = true := by
        simpa [List.any_cons, he2] using h
      simpa [he2, readFile] using ih h2

/-- Reading the appended name from the append branch of `writeFile`
yields the new content. -/
theorem readFile_append_self {D : Type} (fs : List (String × D))
    (p : String) (d : D) :
    readFile (fs ++ [(p, d)]) p = some d ∨
      (readFile fs p).isSome := by
  induction fs with
  | nil => left; simp [readFile, List.find?]
  | cons e fs ih =>
    by_cases he : (e.1 == p) = true
    · right; simp [readFile, List.find?_cons, he]
    · have he2 : (e.1 == p) = false := by simpa using he
      rcases ih with ih | ih
      · left
        unfold readFile at ih ⊢
        rw [List.cons_append]
        simpa [List.find?_cons, he2] using ih
      · right
        unfold readFile at ih ⊢
        simpa [List.find?_cons, he2] using ih

/-- Writing a file and reading it back yields the written content. -/
theorem readFile_writeFile_self {D : Type} (fs : List (String × D))
    (p : String) (d : D) : readFile (writeFile fs p d) p = some d := by
  unfold writeFile
  by_cases h : fs.any (fun e => e.1 == p)
  · rw [if_pos h]
    exact readFile_overwrite_self fs p d h
  · rw [if_neg h]
    rcases readFile_append_self fs p d with h2 | h2
    · exact h2
    · exfalso
      rw [Option.isSome_iff_exists] at h2
      obtain ⟨x, hx⟩ := h2
      unfold readFile at hx
      rw [Option.map_eq_some'] at hx
      obtain ⟨e, he, _⟩ := hx
      have := List.find?_some he
      exact h (List.any_eq_true.mpr ⟨e, List.mem_of_find?_eq_some he, this⟩)

/-- Writing one file does not change reads of a different file. -/
theorem readFile_writeFile_ne {D : Type} (fs : List (String × D))
    (p q : String) (d : D) (hne : q ≠ p) :
    readFile (writeFile fs p d) q = readFile fs q := by
  have hpq : (p == q) = false := by
    simpa using fun hpq => hne hpq.symm
  unfold writeFile
  by_cases h : fs.any (fun e => e.1 == p)
  · rw [if_pos h]
    clear h
    induction fs with
    | nil => rfl
    | cons e fs ih =>
      unfold readFile at ih ⊢
      rw [List.map_cons]
      simp only [List.find?_cons, overwrite_key_eq p q d e]
      by_cases hq : (e.1 == q) = true
      · have heq : e.1 = q := by simpa using hq
        have hep : (e.1 == p) = false := by
          simpa [heq] using fun hc : q = p => hne hc
        simp [hq, hep]
      · have hq2 : (e.1 == q) = false := by simpa using hq
        simpa [hq2] using ih
  · rw [if_neg h]
    clear h
    induction fs with
    | nil => simp [readFile, List.find?, hpq]
    | cons e fs ih =>
      unfold readFile at ih ⊢
      rw [List.cons_append]
      simp only [List.find?_cons]
      by_cases hq : (e.1 == q) = true
      · simp [hq]
      · have hq2 : (e.1 == q) = false := by simpa using hq
        simpa [hq2] using ih

/-- Writing a file never changes how many entries carry a different
name. -/
theorem countP_writeFile_ne {D : Type} (fs : List (String × D))
    (p q : String) (d : D) (hpq : p ≠ q) :
    (writeFile fs p d).countP (fun e => e.1 == q) =
      fs.countP (fun e => e.1 == q) := by
  have hb : (p == q) = false := by simpa using hpq
  unfold writeFile
  by_cases h : fs.any (fun e => e.1 == p)
  · rw [if_pos h, List.countP_map]
    apply List.countP_congr
    intro e _
    show ((if e.1 == p then (p, d) else e).1 == q) = true ↔
      (e.1 == q) = true
    rw [overwrite_key_eq p q d e]
  · rw [if_neg h]
    simp [List.countP_append, List.countP_cons, hb]

/-- Appending a fresh file adds exactly one entry with its name. -/
theorem countP_writeFile_fresh {D : Type} (fs : List (String × D))
    (p : String) (d : D) (h : fs.any (fun e => e.1 == p) = false) :
    (writeFile fs p d).countP (fun e => e.1 == p) =
      fs.countP (fun e => e.1 == p) + 1 := by
  unfold writeFile
  rw [if_neg (by simp [h])]
  simp [List.countP_append, List.countP_cons]

/-- A name that cannot be found has zero entries. -/
theorem countP_eq_zero_of_readFile_none {D : Type}
    (fs : List (String × D)) (p : String)
    (h : readFile fs p = none) :
    fs.countP (fun e => e.1 == p) = 0 := by
  unfold readFile at h
  rw [Option.map_eq_none', List.find?_eq_none] at h
  rw [List.countP_eq_zero]
  exact h

/-- A name that cannot be found does not satisfy `any`. -/
theorem any_eq_false_of_readFile_none {D : Type}
    (fs : List (String × D)) (p : String)
    (h : readFile fs p = none) :
    fs.any (fun e => e.1 == p) = false := by
  unfold readFile at h
  rw [Option.map_eq_none', List.find?_eq_none] at h
  simp only [List.any_eq_false]
  intro x hx
  simpa using h x hx

/-- C1: for a known regulation whose document already exists,
`update_regulation` first writes exactly one backup holding the prior
content — at the intermediate state the backup already exists while the
current document still holds the old content, so the new content is
never observable without its backup — then replaces the document and
reloads, after which `get_regulation_details` returns exactly the new
rule set that was passed in. -/
theorem update_regulation_backs_up_before_replace {D : Type}
    (st : KBState D) (rt path : String) (old new_data : D) (ts : String)
    (hmap : file_map rt = some path)
    (hold : readFile st.files path = some old)
    (hsec : (readFile st.files sec12h_file).isSome)
    (heti : (readFile st.files eti_file).isSome)
    (hfresh : readFile st.files (backupName path ts) = none)
    (hb_sec : backupName path ts ≠ sec12h_file)
    (hb_eti : backupName path ts ≠ eti_file) :
    ∃ st2 : KBState D,
      update_regulation st rt new_data ts = .ok (none, st2)
      ∧ readFile (backup_step st.files path ts) (backupName path ts) =
          some old
      ∧ readFile (backup_step st.files path ts) path = some old
      ∧ readFile st2.files (backupName path ts) = some old
      ∧ readFile st2.files path = some new_data
      ∧ st2.files.countP (fun e => e.1 == backupName path ts) = 1
      ∧ st.files.countP (fun e => e.1 == backupName path ts) = 0
      ∧ (rt = "section_12h" →
          get_regulation_details st2 "SECTION 12H" =
            .ok (some new_data, st2))
      ∧ (rt = "eti" →
          get_regulation_details st2 "ETI" = .ok (some new_data, st2)) := by
  have hcase : (rt = "section_12h" ∧ path = sec12h_file)
      ∨ (rt = "eti" ∧ path = eti_file) := by
    unfold file_map at hmap
    split_ifs at hmap with h1 h2
    · exact Or.inl ⟨h1, by injection hmap with h; exact h.symm⟩
    · exact Or.inr ⟨h2, by injection hmap with h; exact h.symm⟩
  have hfs1 : backup_step st.files path ts =
      writeFile st.files (backupName path ts) old := by
    unfold backup_step
    rw [hold]
  have hpb : path ≠ backupName path ts := by
    rcases hcase with ⟨_, hp⟩ | ⟨_, hp⟩
    · subst hp
      exact fun h => hb_sec h.symm
    · subst hp
      exact fun h => hb_eti h.symm
  have hc2 : readFile (backup_step st.files path ts)
      (backupName path ts) = some old := by
    rw [hfs1]
    exact readFile_writeFile_self _ _ _
  have hc3 : readFile (backup_step st.files path ts) path = some old := by
    rw [hfs1, readFile_writeFile_ne _ _ _ _ hpb]
    exact hold
  have hc4 : readFile
      (writeFile (backup_step st.files path ts) path new_data)
      (backupName path ts) = some old := by
    rw [readFile_writeFile_ne _ _ _ _ (fun h => hpb h.symm)]
    exact hc2
  have hc5 : readFile
      (writeFile (backup_step st.files path ts) path new_data) path =
      some new_data := readFile_writeFile_self _ _ _
  have hanyf : st.files.any (fun e => e.1 == backupName path ts) = false :=
    any_eq_false_of_readFile_none _ _ hfresh
  have hc7 : st.files.countP (fun e => e.1 == backupName path ts) = 0 :=
    countP_eq_zero_of_readFile_none _ _ hfresh
  have hc6 : (writeFile (backup_step st.files path ts) path
      new_data).countP (fun e => e.1 == backupName path ts) = 1 := by
    rw [countP_writeFile_ne _ _ _ _ hpb, hfs1,
      countP_writeFile_fresh _ _ _ hanyf, hc7]
  rcases hcase with ⟨hrt, hp⟩ | ⟨hrt, hp⟩
  · subst hrt
    subst hp
    obtain ⟨y, hy⟩ := Option.isSome_iff_exists.mp heti
    have heti2 : readFile
        (writeFile (backup_step st.files sec12h_file ts) sec12h_file
          new_data) eti_file = some y := by
      rw [readFile_writeFile_ne _ _ _ _ (by decide : eti_file ≠ sec12h_file),
        hfs1, readFile_writeFile_ne _ _ _ _ (fun h => hb_eti h.symm)]
      exact hy
    have hinit : init_kb { st with files :=
        (writeFile (backup_step st.files sec12h_file ts) sec12h_file
          new_data) } = .ok
        (⟨writeFile (backup_step st.files sec12h_file ts) sec12h_file
            new_data, some new_data, some y, true⟩ : KBState D) := by
      simp [init_kb, hc5, heti2]
    refine ⟨⟨writeFile (backup_step st.files sec12h_file ts) sec12h_file
      new_data, some new_data, some y, true⟩,
      ?_, hc2, hc3, hc4, hc5, hc6, hc7, ?_, ?_⟩
    · have hfm : file_map "section_12h" = some sec12h_file := rfl
      simp only [update_regulation, hfm]
      rw [hinit]
      rfl
    · intro _
      have hup : pyUpper "SECTION 12H" = "SECTION 12H".toList := by decide
      simp [get_regulation_details, hup, Except.map]
    · intro hcontra
      exact absurd hcontra (by decide)
  · subst hrt
    subst hp
    obtain ⟨y, hy⟩ := Option.isSome_iff_exists.mp hsec
    have hsec2 : readFile
        (writeFile (backup_step st.files eti_file ts) eti_file new_data)
        sec12h_file = some y := by
      rw [readFile_writeFile_ne _ _ _ _ (by decide : sec12h_file ≠ eti_file),
        hfs1, readFile_writeFile_ne _ _ _ _ (fun h => hb_sec h.symm)]
      exact hy
    have hinit : init_kb { st with files :=
        (writeFile (backup_step st.files eti_file ts) eti_file
          new_data) } = .ok
        (⟨writeFile (backup_step st.files eti_file ts) eti_file
            new_data, some y, some new_data, true⟩ : KBState D) := by
      simp [init_kb, hsec2, hc5]
    refine ⟨⟨writeFile (backup_step st.files eti_file ts) eti_file
      new_data, some y, some new_data, true⟩,
      ?_, hc2, hc3, hc4, hc5, hc6, hc7, ?_, ?_⟩
    · have hfm : file_map "eti" = some eti_file := rfl
      simp only [update_regulation, hfm]
      rw [hinit]
      rfl
    · intro hcontra
      exact absurd hcontra (by decide)
    · intro _
      have hup : pyUpper "ETI" = "ETI".toList := by decide
      have hne2 : ¬ (pyUpper "ETI" = "SECTION 12H".toList) := by decide
      simp [get_regulation_details, hup, hne2, Except.map]

/-- Witness for the C1 theorem at the concrete example store: updating
the Section 12H document (content 10 → 11) with a fresh timestamp
backs up the old content before the document itself changes. -/
theorem update_regulation_backs_up_before_replace_witness :
    (file_map "section_12h" = some sec12h_file)
    ∧ readFile
        (backup_step exampleKBState.files sec12h_file "20250101_120000")
        (backupName sec12h_file "20250101_120000") = some 10
    ∧ readFile
        (backup_step exampleKBState.files sec12h_file "20250101_120000")
        sec12h_file = some 10 := by
  obtain ⟨st2, h1, h2, h3, hrest⟩ :=
    update_regulation_backs_up_before_replace exampleKBState
      "section_12h" sec12h_file 10 11 "20250101_120000"
      rfl rfl rfl rfl (by decide) (by decide) (by decide)
  exact ⟨rfl, h2, h3⟩

/-! ## C9 — keyword search: scoring, exclusion, ordering, truncation -/

/-- Inserting into a list behaves the same under two relations that
agree between the inserted element and every list element. -/
theorem orderedInsert_congr {α : Type} (r₁ r₂ : α → α → Prop)
    [DecidableRel r₁] [DecidableRel r₂] (x : α) :
    ∀ l : List α, (∀ y ∈ l, r₁ x y ↔ r₂ x y) →
      List.orderedInsert r₁ x l = List.orderedInsert r₂ x l
  | [], _ => rfl
  | y :: l, h => by
    rw [List.orderedInsert, List.orderedInsert]
    by_cases hy : r₁ x y
    · rw [if_pos hy, if_pos ((h y (List.mem_cons_self y l)).mp hy)]
    · rw [if_neg hy,
        if_neg (fun hc => hy ((h y (List.mem_cons_self y l)).mpr hc)),
        orderedInsert_congr r₁ r₂ x l
          (fun z hz => h z (List.mem_cons_of_mem y hz))]

/-- Insertion sort is identical under two relations that agree on every
pair that appears in list order. -/
theorem insertionSort_congr {α : Type} (r₁ r₂ : α → α → Prop)
    [DecidableRel r₁] [DecidableRel r₂] :
    ∀ l : List α, l.Pairwise (fun a b => r₁ a b ↔ r₂ a b) →
      List.insertionSort r₁ l = List.insertionSort r₂ l
  | [], _ => rfl
  | x :: l, h => by
    rw [List.insertionSort, List.insertionSort,
      insertionSort_congr r₁ r₂ l h.of_cons]
    apply orderedInsert_congr
    intro y hy
    exact List.rel_of_pairwise_cons h ((List.mem_insertionSort r₂).mp hy)

/-- Every position produced by `enumFrom n` is at least `n`. -/
theorem le_fst_of_mem_enumFrom_aux {α : Type} :
    ∀ (l : List α) (n : ℕ) (p : ℕ × α), p ∈ List.enumFrom n l → n ≤ p.1
  | [], _, _, h => by simp [List.enumFrom] at h
  | a :: l, n, p, h => by
    rw [List.enumFrom] at h
    rcases List.mem_cons.mp h with h | h
    · subst h
      exact Nat.le_refl n
    · exact Nat.le_of_succ_le (le_fst_of_mem_enumFrom_aux l (n + 1) p h)

/-- The positions produced by `enumFrom` are strictly increasing. -/
theorem pairwise_fst_lt_enumFrom {α : Type} :
    ∀ (l : List α) (n : ℕ),
      (List.enumFrom n l).Pairwise (fun p q => p.1 < q.1)
  | [], _ => by simp [List.enumFrom]
  | a :: l, n => by
    rw [List.enumFrom]
    refine List.pairwise_cons.mpr ⟨?_, pairwise_fst_lt_enumFrom l (n + 1)⟩
    intro q hq
    exact Nat.lt_of_lt_of_le (Nat.lt_succ_self n)
      (le_fst_of_mem_enumFrom_aux l (n + 1) q hq)

/-- The positions produced by `enum` are strictly increasing. -/
theorem pairwise_fst_lt_enum {α : Type} (l : List α) :
    l.enum.Pairwise (fun p q => p.1 < q.1) :=
  pairwise_fst_lt_enumFrom l 0

/-- On index-decorated items whose first index is smaller, the
descending-score order used by the Python stable sort agrees with the
score-then-position order of the spec. -/
theorem lexRank_iff_of_lt (a b : ScoredItem × ℕ) (h : a.2 < b.2) :
    (b.1.relevance_score ≤ a.1.relevance_score) ↔ lexRank a b := by
  unfold lexRank
  omega

/-- Dropping the position decoration from the indexed, filtered scored
list yields exactly the plain filtered scored list that `query`
builds. -/
theorem proj_filter_enumFrom (W : List (List Char)) :
    ∀ (l : List KnowledgeItem) (n : ℕ),
      (((List.enumFrom n l).map
          (fun p => (ScoredItem.mk p.2 (itemScore p.2 W), p.1))).filter
        (fun r => 0 < r.1.relevance_score)).map Prod.fst
      = (l.map (fun it => ScoredItem.mk it (itemScore it W))).filter
          (fun r => 0 < r.relevance_score)
  | [], _ => rfl
  | a :: l, n => by
    rw [List.enumFrom, List.map_cons, List.map_cons]
    by_cases h : 0 < itemScore a W
    · simp only [List.filter_cons]
      rw [if_pos (by simpa using h), if_pos (by simpa using h),
        List.map_cons, proj_filter_enumFrom W l (n + 1)]
    · simp only [List.filter_cons]
      rw [if_neg (by simpa using h), if_neg (by simpa using h)]
      exact proj_filter_enumFrom W l (n + 1)

/-- C9: `query` computes exactly the search the spec describes — the
query is tokenized on whitespace case-insensitively, each item scores
10 per token occurring in its (lowercased) content plus 5 per token
occurring in any keyword, zero-scoring items are excluded, the rest are
ordered by descending score with ties in original build order, and the
result is truncated to `top_n`.  Being a pure function of the index and
query, `query` is deterministic and idempotent.  Additionally the
result never exceeds `top_n` items and every returned item carries its
own positive score. -/
theorem query_matches_spec (kb : List KnowledgeItem)
    (query_text : String) (top_n : ℕ) :
    query kb query_text top_n = searchSpec kb query_text top_n
    ∧ (query kb query_text top_n).length ≤ top_n
    ∧ (∀ r ∈ query kb query_text top_n,
        0 < r.relevance_score
        ∧ r.relevance_score =
            itemScore r.item (pySplit (pyLower query_text))) := by
  have hq : query kb query_text top_n =
      List.take top_n
        (List.insertionSort
          (fun a b : ScoredItem => b.relevance_score ≤ a.relevance_score)
          ((kb.map (fun it => ScoredItem.mk it
              (itemScore it (pySplit (pyLower query_text))))).filter
            (fun r => 0 < r.relevance_score))) := rfl
  have hs : searchSpec kb query_text top_n =
      List.take top_n
        ((List.insertionSort lexRank
          ((kb.enum.map (fun p => (ScoredItem.mk p.2
              (itemScore p.2 (pySplit (pyLower query_text))), p.1))).filter
            (fun r => 0 < r.1.relevance_score))).map Prod.fst) := rfl
  have hpw : ((kb.enum.map (fun p => (ScoredItem.mk p.2
      (itemScore p.2 (pySplit (pyLower query_text))), p.1))).filter
        (fun r => 0 < r.1.relevance_score)).Pairwise
      (fun a b : ScoredItem × ℕ => a.2 < b.2) :=
    List.Pairwise.sublist (List.filter_sublist _)
      (List.Pairwise.map _ (fun a b h => h) (pairwise_fst_lt_enum kb))
  have hmap : (List.insertionSort
      (fun a b : ScoredItem × ℕ =>
        b.1.relevance_score ≤ a.1.relevance_score)
      ((kb.enum.map (fun p => (ScoredItem.mk p.2
          (itemScore p.2 (pySplit (pyLower query_text))), p.1))).filter
        (fun r => 0 < r.1.relevance_score))).map Prod.fst
      = List.insertionSort
          (fun a b : ScoredItem => b.relevance_score ≤ a.relevance_score)
          (((kb.enum.map (fun p => (ScoredItem.mk p.2
              (itemScore p.2 (pySplit (pyLower query_text))), p.1))).filter
            (fun r => 0 < r.1.relevance_score)).map Prod.fst) :=
    List.map_insertionSort _ _ _ _ (fun _ _ _ _ => Iff.rfl)
  have hproj : (((kb.enum.map (fun p => (ScoredItem.mk p.2
      (itemScore p.2 (pySplit (pyLower query_text))), p.1))).filter
        (fun r => 0 < r.1.relevance_score)).map Prod.fst)
      = (kb.map (fun it => ScoredItem.mk it
          (itemScore it (pySplit (pyLower query_text))))).filter
        (fun r => 0 < r.relevance_score) :=
    proj_filter_enumFrom (pySplit (pyLower query_text)) kb 0
  have hcore : searchSpec kb query_text top_n = query kb query_text top_n := by
    rw [hq, hs,
      ← insertionSort_congr
        (fun a b : ScoredItem × ℕ =>
          b.1.relevance_score ≤ a.1.relevance_score) lexRank _
        (hpw.imp (fun h => lexRank_iff_of_lt _ _ h)),
      hmap, hproj]
  refine ⟨hcore.symm, ?_, ?_⟩
  · rw [hq, List.length_take]
    exact min_le_left _ _
  · intro r hr
    rw [hq] at hr
    have hr2 := List.mem_of_mem_take hr
    rw [List.mem_insertionSort] at hr2
    have hpos := List.of_mem_filter hr2
    have hmem := List.mem_of_mem_filter hr2
    rw [List.mem_map] at hmem
    obtain ⟨it, _, rfl⟩ := hmem
    exact ⟨by simpa using hpos, rfl⟩

/-- Witness for the C9 theorem: on a one-item index, the query
"allowance" returns the item with score 15 (10 for the content hit
plus 5 for the keyword hit). -/
theorem query_matches_spec_witness :
    0 < (ScoredItem.mk
        ⟨"a", "r", "t", "annual allowance", ["allowance"], "s"⟩
        15).relevance_score
    ∧ (ScoredItem.mk
        ⟨"a", "r", "t", "annual allowance", ["allowance"], "s"⟩
        15).relevance_score =
      itemScore (ScoredItem.mk
        ⟨"a", "r", "t", "annual allowance", ["allowance"], "s"⟩
        15).item (pySplit (pyLower "allowance")) :=
  (query_matches_spec
    [⟨"a", "r", "t", "annual allowance", ["allowance"], "s"⟩]
    "allowance" 3).2.2
    (ScoredItem.mk
      ⟨"a", "r", "t", "annual allowance", ["allowance"], "s"⟩ 15)
    (by decide)
